import Mathlib

/-!
Verification of the Kidlock enforcement engine (`agent/enforcer.py`) and the
clock tamper detector (`agent/tamper_detector.py`).

The Python code is shallowly embedded: every operation on a `UserState`
becomes a pure Lean function on an explicit `UserState` value, with the
ambient clock readings (today's ISO date, the weekday index, the
seconds-of-day wall-clock time) passed in as arguments, and calls to
`self._save_state()` recorded as an explicit boolean / snapshot so that
persistence behaviour can be stated.  Python integers are `Int`, Python
`set` is `Finset Int`, Python `Optional[T]` is `Option T`, and the float
clock readings of the tamper detector are `Rat`.
-/

namespace Kidlock

/-! ## String helpers (models of the Python string operations used) -/

/-- Model of Python `s.split(c)` for a one-character separator: splits at
every occurrence of `c`, keeping empty pieces, so the result always has
(number of occurrences + 1) parts. -/
def splitOnChar (c : Char) : List Char → List (List Char)
  | [] => [[]]
  | x :: xs =>
    let r := splitOnChar c xs
    if x = c then [] :: r
    else
      match r with
      | [] => [[x]]
      | y :: ys => (x :: y) :: ys

/-- Model of Python `s.strip()`: drop whitespace from both ends. -/
def stripChars (l : List Char) : List Char :=
  ((l.dropWhile Char.isWhitespace).reverse.dropWhile Char.isWhitespace).reverse

/-- Numeric value of a digit string (used only on all-digit strings). -/
def digitsToNat (l : List Char) : Nat :=
  l.foldl (fun a c => a * 10 + (c.toNat - 48)) 0

/-- Whether the character sequence `p` occurs at the start of `l`. -/
def beginsWith : List Char → List Char → Bool
  | [], _ => true
  | _ :: _, [] => false
  | p :: ps, x :: xs => (p = x) && beginsWith ps xs

/-- Model of Python `p in s` (substring containment). -/
def containsSeq (p : List Char) : List Char → Bool
  | [] => beginsWith p []
  | x :: xs => beginsWith p (x :: xs) || containsSeq p xs

/-- Model of Python `s.lower()` (ASCII is all the code ever compares). -/
def lowerStr (l : List Char) : List Char :=
  l.map Char.toLower

/-! ## Config data (`agent/config.py`) -/

/-- `ScheduleConfig` from `agent/config.py`: a weekday window and a weekend
window, each a string of the form `"HH:MM-HH:MM"`. -/
structure ScheduleConfig where
  weekday : String
  weekend : String
deriving Repr, DecidableEq

/-- `UserConfig` from `agent/config.py` (the fields `check_user` reads). -/
structure UserConfig where
  username : String
  daily_minutes : Int
  schedule : ScheduleConfig
  warnings : List Int
deriving Repr, DecidableEq

/-! ## Schedule evaluation (`Enforcer.is_within_schedule`) -/

/-- Model of `datetime.strptime(s.strip(), "%H:%M").time()` returning the
time as seconds-of-day: one or two digits for the hour (0..23), one or two
digits for the minute (0..59), separated by a colon; anything else raises
`ValueError`, modelled as `none`. -/
def parseTimeHM (s : List Char) : Option Nat :=
  match splitOnChar ':' (stripChars s) with
  | [h, m] =>
    if (1 ≤ h.length && h.length ≤ 2 && h.all Char.isDigit &&
        (1 ≤ m.length && m.length ≤ 2 && m.all Char.isDigit)) then
      let hv := digitsToNat h
      let mv := digitsToNat m
      if hv ≤ 23 && mv ≤ 59 then some (hv * 3600 + mv * 60) else none
    else none
  | _ => none

/-- Model of the parsing part of `is_within_schedule`:
`start_str, end_str = schedule_str.split("-")` followed by the two
`strptime` calls.  `none` means some step raised `ValueError`. -/
def parseWindow (w : String) : Option (Nat × Nat) :=
  match splitOnChar '-' w.data with
  | [a, b] =>
    match parseTimeHM a, parseTimeHM b with
    | some s, some e => some (s, e)
    | _, _ => none
  | _ => none

/-- Evaluation of one window string at a seconds-of-day instant `t`:
`start_time <= current_time <= end_time`, and `True` ("allow on error")
when the window string is malformed. -/
def windowAllows (w : String) (t : Nat) : Bool :=
  match parseWindow w with
  | some (s, e) => decide (s ≤ t) && decide (t ≤ e)
  | none => true

/-- `Enforcer.is_within_schedule`.  `wd` is `datetime.now().weekday()`
(0 = Monday .. 6 = Sunday) and `t` the current seconds-of-day. -/
def is_within_schedule (sched : ScheduleConfig) (wd : Nat) (t : Nat) : Bool :=
  windowAllows (if 5 ≤ wd then sched.weekend else sched.weekday) t

/-! ## User state (`UserState` in `agent/enforcer.py`) -/

/-- `pending_request` payload: `{id, minutes, reason, created_at}`. -/
structure PendingRequest where
  id : String
  minutes : Int
  reason : String
  created_at : String
deriving Repr, DecidableEq

/-- `UserState.__init__`: the per-user record the enforcer mutates.
`warnings_sent` is a Python `set`, modelled as `Finset Int`; the two
`Optional` fields are `Option`. -/
structure UserState where
  username : String
  usage_minutes : Int
  last_usage_date : Option String
  blocked : Bool
  block_reason : String
  paused : Bool
  paused_at : Option String
  bonus_minutes : Int
  warnings_sent : Finset Int
  is_idle : Bool
  pending_request : Option PendingRequest
deriving DecidableEq

/-- The fresh state `UserState(username)` constructs. -/
def UserState.init (username : String) : UserState where
  username := username
  usage_minutes := 0
  last_usage_date := none
  blocked := false
  block_reason := ""
  paused := false
  paused_at := none
  bonus_minutes := 0
  warnings_sent := ∅
  is_idle := false
  pending_request := none

/-! ## Enforcer operations

Each mutating method returns the new `UserState` (and, where a claim is
about persistence, a flag or snapshot recording the `_save_state()` call).
The current date `today` stands for `date.today().isoformat()`. -/

/-- Day-rollover block at the top of `Enforcer.check_user`: on a date
change it zeroes `usage_minutes` and `bonus_minutes`, empties
`warnings_sent`, stamps `last_usage_date`, and saves.  The boolean is
whether `_save_state()` ran. -/
def rollover_full (st : UserState) (today : String) : UserState × Bool :=
  if st.last_usage_date ≠ some today then
    ({ st with usage_minutes := 0, bonus_minutes := 0, warnings_sent := ∅,
               last_usage_date := some today }, true)
  else (st, false)

/-- `Enforcer.check_user`: rollover, then the schedule gate, then the
daily-limit gate.  Returns (state after the call, whether `_save_state()`
ran, allowed, reason). -/
def check_user (st : UserState) (cfg : UserConfig) (today : String)
    (wd : Nat) (t : Nat) : UserState × Bool × Bool × String :=
  let rolled := rollover_full st today
  let st1 := rolled.1
  if ¬ is_within_schedule cfg.schedule wd t then
    (st1, rolled.2, false, "Outside allowed hours")
  else if 0 < cfg.daily_minutes ∧ cfg.daily_minutes + st1.bonus_minutes ≤ st1.usage_minutes then
    (st1, rolled.2, false, "Daily time limit reached")
  else
    (st1, rolled.2, true, "")

/-- `Enforcer.add_usage`: its own (partial) rollover — it resets only
`usage_minutes` and `last_usage_date` — then adds the minutes and saves
(the save is unconditional, so it is not modelled). -/
def add_usage (st : UserState) (minutes : Int) (today : String) : UserState :=
  let st1 :=
    if st.last_usage_date ≠ some today then
      { st with usage_minutes := 0, last_usage_date := some today }
    else st
  { st1 with usage_minutes := st1.usage_minutes + minutes }

/-- `Enforcer.get_time_remaining`. -/
def get_time_remaining (st : UserState) (daily_limit : Int) (today : String) : Int :=
  if daily_limit ≤ 0 then -1
  else if st.last_usage_date ≠ some today then daily_limit
  else max 0 (daily_limit + st.bonus_minutes - st.usage_minutes)

/-- `Enforcer.get_warnings_to_send`: early `[]` for non-positive limits,
otherwise the thresholds not yet sent whose remaining time has been
reached, in input order. -/
def get_warnings_to_send (st : UserState) (daily_limit : Int)
    (warning_thresholds : List Int) (today : String) : List Int :=
  if daily_limit ≤ 0 then []
  else
    let remaining := get_time_remaining st daily_limit today
    warning_thresholds.filter
      (fun threshold => !decide (threshold ∈ st.warnings_sent) && decide (remaining ≤ threshold))

/-- `Enforcer.mark_warning_sent`. -/
def mark_warning_sent (st : UserState) (threshold : Int) : UserState :=
  { st with warnings_sent := insert threshold st.warnings_sent }

/-- `Enforcer.add_bonus_time`: adds the minutes and lifts a block whose
reason contains "limit" (case-insensitive). -/
def add_bonus_time (st : UserState) (minutes : Int) : UserState :=
  let st1 := { st with bonus_minutes := st.bonus_minutes + minutes }
  if st1.blocked && containsSeq "limit".data (lowerStr st1.block_reason.data) then
    { st1 with blocked := false, block_reason := "" }
  else st1

/-- `Enforcer.set_paused`.  `now` stands for `datetime.now().isoformat()`.
The boolean records the `_save_state()` call, which the code performs
unconditionally, after the two transition branches. -/
def set_paused (st : UserState) (paused : Bool) (now : String) : UserState × Bool :=
  let st1 :=
    if paused && !st.paused then { st with paused := true, paused_at := some now }
    else if !paused && st.paused then { st with paused := false, paused_at := none }
    else st
  (st1, true)

/-! ## Force logout (`Enforcer.force_logout`) -/

/-- Outcome of the two OS termination attempts in `force_logout`:
`none` for a raised exception, `some rc` for a completed subprocess with
return code `rc`.  `pkill` is only consulted when `loginctl` completes
with a nonzero code, mirroring the control flow. -/
structure TermEnv where
  loginctl : Option Int
  pkill : Option Int
deriving Repr, DecidableEq

/-- Result of the `try` block of `force_logout`: true iff one of the two
termination methods reports return code 0; an exception anywhere gives
false. -/
def term_attempt (env : TermEnv) : Bool :=
  match env.loginctl with
  | none => false
  | some rc =>
    if rc = 0 then true
    else
      match env.pkill with
      | none => false
      | some rc2 => rc2 = 0

/-- `Enforcer.force_logout`: sets `blocked`/`block_reason`, saves, then
attempts termination.  Returns (final state, list of states passed to
`_save_state()` during the call in order, returned boolean). -/
def force_logout (st : UserState) (reason : String) (env : TermEnv) :
    UserState × List UserState × Bool :=
  let st1 := { st with blocked := true, block_reason := reason }
  (st1, [st1], term_attempt env)

/-- `Enforcer.unblock_user`. -/
def unblock_user (st : UserState) : UserState :=
  { st with blocked := false, block_reason := "" }

/-! ## Login gate (`check_login_allowed`, module-level function) -/

/-- One user's record as the PAM path reads it back from `state.json`:
fields may be absent (`data.get` with defaults). -/
structure StoredUser where
  blocked : Option Bool
  block_reason : Option String
deriving Repr, DecidableEq

/-- What reading the state file can yield: no file at all, any read/parse
exception, or a decoded users map (an association list, keyed by
username). -/
inductive StoreRead where
  | noFile : StoreRead
  | failed : StoreRead
  | ok : List (String × StoredUser) → StoreRead
deriving DecidableEq

/-- Python `dict.get(username)` on the decoded users map. -/
def lookupUser (users : List (String × StoredUser)) (username : String) :
    Option StoredUser :=
  (users.find? (fun p => p.1 == username)).map Prod.snd

/-- `check_login_allowed`: allow when there is no file, on any error, or
when the user has no record / is not blocked; deny with the stored reason
(default "Access blocked") when the record says `blocked`. -/
def check_login_allowed (read : StoreRead) (username : String) : Bool × String :=
  match read with
  | .noFile => (true, "")
  | .failed => (true, "")
  | .ok users =>
    match lookupUser users username with
    | none => (true, "")
    | some u =>
      if u.blocked.getD false then (false, u.block_reason.getD "Access blocked")
      else (true, "")

/-! ## Tamper detector (`agent/tamper_detector.py`) -/

/-- `TamperDetector` state: the last (wall, monotonic) pair — the code
sets and clears the two fields together, and both are `None` until the
first check — and the threshold in seconds.  Clock readings are `Rat`
(the Python values are a `datetime` and a float). -/
structure TamperDetector where
  last : Option (Rat × Rat)
  threshold : Rat
deriving DecidableEq

/-- `TamperDetector.__init__(threshold_seconds)`. -/
def TamperDetector.init (threshold_seconds : Rat) : TamperDetector :=
  ⟨none, threshold_seconds⟩

/-- `TamperDetector.check`, with the two clock readings as inputs:
first call records the pair; later calls compare the wall delta with the
monotonic delta, always slide the baseline, and flag a backward jump
beyond the threshold. -/
def TamperDetector.check (d : TamperDetector) (now : Rat) (now_mono : Rat) :
    TamperDetector × Bool × String :=
  match d.last with
  | none => ({ d with last := some (now, now_mono) }, false, "Initial check")
  | some (lw, lm) =>
    let mono_elapsed := now_mono - lm
    let expected := lw + mono_elapsed
    let diff := now - expected
    let d1 : TamperDetector := { d with last := some (now, now_mono) }
    if diff < -d.threshold then
      (d1, true, "Clock jumped backwards by " ++ toString ⌊|diff|⌋ ++ " seconds")
    else
      (d1, false, "OK")

/-- `TamperDetector.reset`. -/
def TamperDetector.reset (d : TamperDetector) : TamperDetector :=
  { d with last := none }

/-! ## Concrete fixtures used by witnesses and counterexamples -/

/-- An always-open schedule with a 120-minute daily limit. -/
def cfgDemo : UserConfig :=
  ⟨"kid", 120, ⟨"00:00-23:59", "00:00-23:59"⟩, [10, 5, 1]⟩

/-- A state carrying yesterday's bonus minutes and sent warnings into a
new day: `last_usage_date` is 2024-01-01 while "today" will be
2024-01-02. -/
def stStale : UserState :=
  { UserState.init "kid" with
      last_usage_date := some "2024-01-01"
      usage_minutes := 40
      bonus_minutes := 30
      warnings_sent := {10} }

/-- A user 115 minutes into a 120-minute day. -/
def stWarn : UserState :=
  add_usage (UserState.init "kid") 115 "2024-01-15"

/-! ## Claim theorems -/

/-- C1: the first `check_user`/`add_usage` call of a new day is claimed to
reset `usage_minutes`, `bonus_minutes` and `warnings_sent` together.  The
code does so only in `check_user`: evaluated at a state carrying
yesterday's bonus and warnings, `add_usage` on the new day stamps the
date and resets `usage_minutes` but leaves `bonus_minutes = 30` and
`warnings_sent = {10}` in place, while `check_user` on the same state
clears all three — so the two rollover paths disagree. -/
theorem C1_add_usage_rollover_divergence :
    (add_usage stStale 5 "2024-01-02").last_usage_date = some "2024-01-02" ∧
    (add_usage stStale 5 "2024-01-02").usage_minutes = 5 ∧
    (add_usage stStale 5 "2024-01-02").bonus_minutes = 30 ∧
    (add_usage stStale 5 "2024-01-02").warnings_sent = {10} ∧
    (check_user stStale cfgDemo "2024-01-02" 0 43200).1.usage_minutes = 0 ∧
    (check_user stStale cfgDemo "2024-01-02" 0 43200).1.bonus_minutes = 0 ∧
    (check_user stStale cfgDemo "2024-01-02" 0 43200).1.warnings_sent = ∅ ∧
    (check_user stStale cfgDemo "2024-01-02" 0 43200).1.last_usage_date =
      some "2024-01-02" ∧
    (check_user (check_user stStale cfgDemo "2024-01-02" 0 43200).1 cfgDemo
        "2024-01-02" 0 43200).2.1 = false := by
  decide

/-- C5: `get_time_remaining` returns `-1` for a non-positive limit, the
full `daily_limit` when the stored date is not today, and otherwise
`max 0 (daily_limit + bonus_minutes - usage_minutes)`; and concretely,
after `add_usage(100)` and `add_bonus_time(30)` on the same day,
`get_time_remaining(120) = 50`. -/
theorem C5_time_remaining (st : UserState) (daily_limit : Int) (today : String) :
    (daily_limit ≤ 0 → get_time_remaining st daily_limit today = -1) ∧
    (0 < daily_limit → st.last_usage_date ≠ some today →
      get_time_remaining st daily_limit today = daily_limit) ∧
    (0 < daily_limit → st.last_usage_date = some today →
      get_time_remaining st daily_limit today =
        max 0 (daily_limit + st.bonus_minutes - st.usage_minutes)) ∧
    get_time_remaining
      (add_bonus_time (add_usage (UserState.init "kid") 100 today) 30)
      120 today = 50 := by
  refine ⟨?_, ?_, ?_, ?_⟩
  · intro h
    simp [get_time_remaining, h]
  · intro h hdate
    rw [get_time_remaining, if_neg (by omega), if_pos hdate]
  · intro h hdate
    rw [get_time_remaining, if_neg (by omega), if_neg (by simp [hdate])]
  · simp [get_time_remaining, add_usage, add_bonus_time, UserState.init,
      containsSeq, beginsWith]

/-- C5 witness: the theorem applied at a fresh user with limit 0 and at
the concrete usage/bonus chain of the claim. -/
theorem C5_time_remaining_witness :
    get_time_remaining (UserState.init "kid") 0 "2024-01-15" = -1 ∧
    get_time_remaining
      (add_bonus_time (add_usage (UserState.init "kid") 100 "2024-01-15") 30)
      120 "2024-01-15" = 50 :=
  ⟨(C5_time_remaining (UserState.init "kid") 0 "2024-01-15").1 (by decide),
   (C5_time_remaining (UserState.init "kid") 0 "2024-01-15").2.2.2⟩

/-- C7: `force_logout` marks the user blocked with the given reason and
hands exactly that state to `_save_state()` before the termination
attempt; neither the final state nor the persisted snapshot depends on the
termination outcome, the other state fields are untouched, and the
returned boolean is exactly the outcome of the two-tier termination
attempt, independent of the user and reason. -/
theorem C7_force_logout (st : UserState) (reason : String) (env : TermEnv) :
    (force_logout st reason env).1.blocked = true ∧
    (force_logout st reason env).1.block_reason = reason ∧
    (force_logout st reason env).2.1 = [(force_logout st reason env).1] ∧
    (∀ env2 : TermEnv,
      (force_logout st reason env2).1 = (force_logout st reason env).1 ∧
      (force_logout st reason env2).2.1 = (force_logout st reason env).2.1) ∧
    (force_logout st reason env).1.usage_minutes = st.usage_minutes ∧
    (force_logout st reason env).1.bonus_minutes = st.bonus_minutes ∧
    (force_logout st reason env).1.last_usage_date = st.last_usage_date ∧
    (force_logout st reason env).1.paused = st.paused ∧
    (force_logout st reason env).1.warnings_sent = st.warnings_sent ∧
    (force_logout st reason env).2.2 = term_attempt env ∧
    (∀ st2 : UserState, ∀ r2 : String,
      (force_logout st2 r2 env).2.2 = (force_logout st reason env).2.2) := by
  refine ⟨rfl, rfl, rfl, fun env2 => ⟨rfl, rfl⟩, rfl, rfl, rfl, rfl, rfl, rfl,
    fun st2 r2 => rfl⟩

/-- C10: for a non-positive daily limit `get_warnings_to_send` returns
the empty list even though `get_time_remaining` returns `-1`, which is
below every non-negative threshold. -/
theorem C10_unlimited_no_warnings (st : UserState) (daily_limit : Int)
    (ths : List Int) (today : String) :
    daily_limit ≤ 0 →
      get_warnings_to_send st daily_limit ths today = [] ∧
      get_time_remaining st daily_limit today = -1 ∧
      (∀ t : Int, 0 ≤ t → get_time_remaining st daily_limit today ≤ t) := by
  intro h
  refine ⟨?_, ?_, ?_⟩
  · simp [get_warnings_to_send, h]
  · simp [get_time_remaining, h]
  · intro t ht
    simp only [get_time_remaining, if_pos h]
    omega

/-- C10 witness: the theorem applied with limit 0, a fresh user and a
single threshold 10. -/
theorem C10_unlimited_no_warnings_witness :
    get_warnings_to_send (UserState.init "kid") 0 [10] "2024-01-15" = [] ∧
    get_time_remaining (UserState.init "kid") 0 "2024-01-15" = -1 ∧
    (∀ t : Int, 0 ≤ t → get_time_remaining (UserState.init "kid") 0 "2024-01-15" ≤ t) :=
  C10_unlimited_no_warnings (UserState.init "kid") 0 [10] "2024-01-15" (by decide)

/-- C2: a first `check` records the clock pair and reports no tampering;
every call updates the stored pair to the current readings whatever the
outcome, and a non-first call reports tampering exactly when
`now_wall - (last_wall + (now_mono - last_mono)) < -threshold`.
Concretely, from a baseline, a 90-second wall-clock drop while monotonic
advances 5 seconds trips the 60-second threshold, and a 30-second drop
does not. -/
theorem C2_tamper_check :
    (∀ d : TamperDetector, ∀ now now_mono : Rat,
      ((d.check now now_mono).1.last = some (now, now_mono)) ∧
      ((d.check now now_mono).1.threshold = d.threshold) ∧
      ((d.check now now_mono).2.1 =
        match d.last with
        | none => false
        | some (lw, lm) => decide (now - (lw + (now_mono - lm)) < -d.threshold))) ∧
    ((TamperDetector.init 60).check 1000 500).2.1 = false ∧
    (((TamperDetector.init 60).check 1000 500).1.check 910 505).2.1 = true ∧
    (((TamperDetector.init 60).check 1000 500).1.check 970 505).2.1 = false := by
  refine ⟨?_, ?_, ?_, ?_⟩
  · intro d now now_mono
    obtain ⟨last, th⟩ := d
    cases last with
    | none => simp [TamperDetector.check]
    | some p =>
      obtain ⟨lw, lm⟩ := p
      simp only [TamperDetector.check]
      by_cases h : now - (lw + (now_mono - lm)) < -th
      · simp [h]
      · simp [h]
  · norm_num [TamperDetector.check, TamperDetector.init]
  · norm_num [TamperDetector.check, TamperDetector.init]
  · norm_num [TamperDetector.check, TamperDetector.init]

/-- C3: `check_user` first applies the schedule gate, answering
(false, "Outside allowed hours") outside the window; inside the window it
answers (false, "Daily time limit reached") exactly when the limit is
positive and post-rollover usage has reached limit plus bonus, and
(true, "") otherwise — in particular always (true, "") inside the window
when the limit is non-positive. -/
theorem C3_check_user_decision (st : UserState) (cfg : UserConfig)
    (today : String) (wd t : Nat) :
    (is_within_schedule cfg.schedule wd t = false →
      (check_user st cfg today wd t).2.2 = (false, "Outside allowed hours")) ∧
    (is_within_schedule cfg.schedule wd t = true →
      0 < cfg.daily_minutes →
      cfg.daily_minutes + (rollover_full st today).1.bonus_minutes ≤
        (rollover_full st today).1.usage_minutes →
      (check_user st cfg today wd t).2.2 = (false, "Daily time limit reached")) ∧
    (is_within_schedule cfg.schedule wd t = true →
      (rollover_full st today).1.usage_minutes <
        cfg.daily_minutes + (rollover_full st today).1.bonus_minutes →
      (check_user st cfg today wd t).2.2 = (true, "")) ∧
    (is_within_schedule cfg.schedule wd t = true →
      cfg.daily_minutes ≤ 0 →
      (check_user st cfg today wd t).2.2 = (true, "")) := by
  refine ⟨?_, ?_, ?_, ?_⟩
  · intro h
    simp [check_user, h]
  · intro h hpos hle
    simp [check_user, h, hpos, hle]
  · intro h hlt
    simp only [check_user]
    rw [if_neg (by simp [h]), if_neg (by omega)]
  · intro h hnp
    simp only [check_user]
    rw [if_neg (by simp [h]), if_neg (by omega)]

/-- C3 witness: the theorem applied to a fresh user under the always-open
120-minute demo config at Monday noon, and to a user at the limit. -/
theorem C3_check_user_decision_witness :
    (check_user (UserState.init "kid") cfgDemo "2024-01-15" 0 43200).2.2 =
      (true, "") ∧
    (check_user (add_usage (UserState.init "kid") 120 "2024-01-15") cfgDemo
      "2024-01-15" 0 43200).2.2 = (false, "Daily time limit reached") :=
  ⟨(C3_check_user_decision (UserState.init "kid") cfgDemo "2024-01-15" 0
      43200).2.2.1 (by decide) (by decide),
   (C3_check_user_decision (add_usage (UserState.init "kid") 120 "2024-01-15")
      cfgDemo "2024-01-15" 0 43200).2.1 (by decide) (by decide) (by decide)⟩

/-- C4: Saturday/Sunday (weekday index ≥ 5) select the weekend window and
other days the weekday window; a window that parses allows exactly the
instants between its bounds, both endpoints included; a malformed window
allows everything; and concretely "09:00-17:00" on a Monday denies 08:59
and 17:01 and allows 09:00 and 17:00. -/
theorem C4_schedule_window :
    (∀ sched : ScheduleConfig, ∀ wd t : Nat, 5 ≤ wd →
      is_within_schedule sched wd t = windowAllows sched.weekend t) ∧
    (∀ sched : ScheduleConfig, ∀ wd t : Nat, wd < 5 →
      is_within_schedule sched wd t = windowAllows sched.weekday t) ∧
    (∀ w : String, ∀ s e t : Nat, parseWindow w = some (s, e) →
      (windowAllows w t = true ↔ s ≤ t ∧ t ≤ e)) ∧
    (∀ w : String, ∀ t : Nat, parseWindow w = none → windowAllows w t = true) ∧
    is_within_schedule ⟨"09:00-17:00", "10:00-20:00"⟩ 0 (8 * 3600 + 59 * 60) = false ∧
    is_within_schedule ⟨"09:00-17:00", "10:00-20:00"⟩ 0 (9 * 3600) = true ∧
    is_within_schedule ⟨"09:00-17:00", "10:00-20:00"⟩ 0 (17 * 3600) = true ∧
    is_within_schedule ⟨"09:00-17:00", "10:00-20:00"⟩ 0 (17 * 3600 + 60) = false ∧
    is_within_schedule ⟨"garbage", "10:00-20:00"⟩ 2 12345 = true := by
  refine ⟨?_, ?_, ?_, ?_, by decide, by decide, by decide, by decide, by decide⟩
  · intro sched wd t h
    simp [is_within_schedule, h]
  · intro sched wd t h
    simp [is_within_schedule, Nat.not_le.mpr h]
  · intro w s e t h
    simp [windowAllows, h]
  · intro w t h
    simp [windowAllows, h]

/-- C4 witness: the parse-success clause applied to the window
"09:00-17:00" at 11:06:40, and the fail-open clause at a malformed
window. -/
theorem C4_schedule_window_witness :
    windowAllows "09:00-17:00" 40000 = true ∧
    windowAllows "garbage" 40000 = true :=
  ⟨(C4_schedule_window.2.2.1 "09:00-17:00" 32400 61200 40000 (by decide)).mpr
      (by decide),
   C4_schedule_window.2.2.2.1 "garbage" 40000 (by decide)⟩

/-- C6 counterexample: for `daily_limit = 0` the per-threshold rule of
the claim would return `[10]` for a fresh user — the remaining time `-1`
is at most `10` and `10` has not been sent — yet the code returns `[]`:
the early unlimited-user guard makes the claimed characterization false
as stated for non-positive limits. -/
theorem C6_warnings_filter_counterexample :
    get_warnings_to_send (UserState.init "kid") 0 [10] "2024-01-15" = [] ∧
    get_time_remaining (UserState.init "kid") 0 "2024-01-15" ≤ 10 ∧
    (10 : Int) ∉ (UserState.init "kid").warnings_sent ∧
    (10 : Int) ∈ ([10] : List Int) := by
  decide

/-- C6 (amended): for a positive `daily_limit`, `get_warnings_to_send`
returns exactly the thresholds, in input order, that are not in
`warnings_sent` and whose `get_time_remaining` bound has been reached;
for a non-positive limit it returns `[]`.  It reads but never writes the
state (in this embedding it is a function of the state, so two calls with
no intervening mutation agree definitionally), and after
`mark_warning_sent x` no call returns `x` again that day. -/
theorem C6_warnings_to_send_amended (st : UserState) (daily_limit : Int)
    (ths : List Int) (today : String) :
    (0 < daily_limit →
      get_warnings_to_send st daily_limit ths today =
        ths.filter (fun th => !decide (th ∈ st.warnings_sent) &&
          decide (get_time_remaining st daily_limit today ≤ th))) ∧
    (daily_limit ≤ 0 → get_warnings_to_send st daily_limit ths today = []) ∧
    (get_warnings_to_send st daily_limit ths today =
      get_warnings_to_send st daily_limit ths today) ∧
    (∀ x : Int, x ∉ get_warnings_to_send (mark_warning_sent st x) daily_limit ths today) := by
  refine ⟨?_, ?_, rfl, ?_⟩
  · intro h
    rw [get_warnings_to_send, if_neg (by omega)]
  · intro h
    simp [get_warnings_to_send, h]
  · intro x
    by_cases h : daily_limit ≤ 0
    · simp [get_warnings_to_send, h]
    · simp [get_warnings_to_send, h, List.mem_filter, mark_warning_sent,
        get_time_remaining]

/-- C6 witness: the amended characterization applied to a user 115
minutes into a 120-minute day with thresholds [10, 5, 1], and the
mark-then-never-again clause at threshold 10. -/
theorem C6_warnings_to_send_amended_witness :
    get_warnings_to_send stWarn 120 [10, 5, 1] "2024-01-15" =
      ([10, 5, 1] : List Int).filter (fun th => !decide (th ∈ stWarn.warnings_sent) &&
        decide (get_time_remaining stWarn 120 "2024-01-15" ≤ th)) ∧
    (10 : Int) ∉ get_warnings_to_send (mark_warning_sent stWarn 10) 120
      [10, 5, 1] "2024-01-15" :=
  ⟨(C6_warnings_to_send_amended stWarn 120 [10, 5, 1] "2024-01-15").1 (by decide),
   (C6_warnings_to_send_amended stWarn 120 [10, 5, 1] "2024-01-15").2.2.2 10⟩

/-- C8: the login gate answers (true, "") when there is no state file, on
any read or parse failure, when the user has no record, or when the
record is not blocked; a record with `blocked = true` is denied with its
stored `block_reason` (or the default "Access blocked" when the reason
field is absent). -/
theorem C8_login_gate (username : String) :
    check_login_allowed .noFile username = (true, "") ∧
    check_login_allowed .failed username = (true, "") ∧
    (∀ users, lookupUser users username = none →
      check_login_allowed (.ok users) username = (true, "")) ∧
    (∀ users u, lookupUser users username = some u →
      u.blocked.getD false = false →
      check_login_allowed (.ok users) username = (true, "")) ∧
    (∀ users u r, lookupUser users username = some u →
      u.blocked = some true → u.block_reason = some r →
      check_login_allowed (.ok users) username = (false, r)) ∧
    (∀ users u, lookupUser users username = some u →
      u.blocked = some true → u.block_reason = none →
      check_login_allowed (.ok users) username = (false, "Access blocked")) := by
  refine ⟨rfl, rfl, ?_, ?_, ?_, ?_⟩
  · intro users h
    simp [check_login_allowed, h]
  · intro users u h hb
    simp [check_login_allowed, h, hb]
  · intro users u r h hb hr
    simp [check_login_allowed, h, hb, hr]
  · intro users u h hb hr
    simp [check_login_allowed, h, hb, hr]

/-- C8 witness: the theorem applied to a store holding one blocked record
for "kid" and to a store in which "kid" has no record. -/
theorem C8_login_gate_witness :
    check_login_allowed
      (.ok [("kid", ⟨some true, some "Daily time limit reached"⟩)]) "kid" =
      (false, "Daily time limit reached") ∧
    check_login_allowed (.ok [("sib", ⟨some true, some "x"⟩)]) "kid" = (true, "") :=
  ⟨(C8_login_gate "kid").2.2.2.2.1
      [("kid", ⟨some true, some "Daily time limit reached"⟩)]
      ⟨some true, some "Daily time limit reached"⟩ "Daily time limit reached"
      (by decide) rfl rfl,
   (C8_login_gate "kid").2.2.1 [("sib", ⟨some true, some "x"⟩)] (by decide)⟩

/-- C9 counterexample: with the user already unpaused, `set_paused false`
leaves the state unchanged yet still performs a persistence write — the
code calls `_save_state()` unconditionally, so "persists on change only"
is false. -/
theorem C9_set_paused_counterexample :
    (set_paused (UserState.init "kid") false "2024-01-15T10:00:00").1 =
      UserState.init "kid" ∧
    (set_paused (UserState.init "kid") false "2024-01-15T10:00:00").2 = true := by
  decide

/-- C9 (amended): `set_paused b` with `paused` already equal to `b`
leaves `paused` and `paused_at` (indeed the whole state) unchanged, but
every call — no-op or not — performs a persistence write; an actual
transition sets `paused := b` with `paused_at` stamped to now when `b` is
true and cleared when `b` is false, so the invariant "`paused_at` is set
iff `paused`" is preserved. -/
theorem C9_set_paused_amended (st : UserState) (b : Bool) (now : String) :
    (st.paused = b → (set_paused st b now).1 = st) ∧
    (st.paused = false → b = true →
      (set_paused st b now).1 = { st with paused := true, paused_at := some now }) ∧
    (st.paused = true → b = false →
      (set_paused st b now).1 = { st with paused := false, paused_at := none }) ∧
    (set_paused st b now).2 = true ∧
    ((st.paused = true ↔ st.paused_at ≠ none) →
      ((set_paused st b now).1.paused = true ↔
        (set_paused st b now).1.paused_at ≠ none)) := by
  refine ⟨?_, ?_, ?_, rfl, ?_⟩
  · intro h
    cases b <;> simp_all [set_paused]
  · intro h hb
    simp [set_paused, h, hb]
  · intro h hb
    simp [set_paused, h, hb]
  · intro hinv
    cases hb : b <;> cases hp : st.paused <;>
      simp_all [set_paused]

/-- C9 witness: the amended theorem applied to a pause transition and to
a no-op call on a fresh user. -/
theorem C9_set_paused_amended_witness :
    (set_paused (UserState.init "kid") true "2024-01-15T10:00:00").1 =
      { UserState.init "kid" with
          paused := true, paused_at := some "2024-01-15T10:00:00" } ∧
    (set_paused (UserState.init "kid") false "2024-01-15T11:00:00").1 =
      UserState.init "kid" :=
  ⟨(C9_set_paused_amended (UserState.init "kid") true "2024-01-15T10:00:00").2.1
      (by decide) rfl,
   (C9_set_paused_amended (UserState.init "kid") false "2024-01-15T11:00:00").1
      (by decide)⟩

end Kidlock
